import Mathlib

/-!
# rpi-evl-audio-driver: the session layer of `rpi-audio-evl.c`

A shallow embedding of the character-device operations of the EVL audio driver
(`audio_driver_open`, `audio_driver_oob_ioctl`, `audio_driver_ioctl`) together
with the module-level counters they maintain.

Machine integers are `Nat` (unsigned) and `Int` (signed) with the wrap-around of
their C type made explicit at every assignment:

* `dev->kinterrupts` is `uint64_t`, `kernel_interrupts` is `uint` (32 bit),
* `user_proc_completions` is `unsigned long` (32 bit on arm, 64 bit on arm64),
* `session_under_runs` and the local `under_runs` are `int` (32 bit; the kernel
  is built with wrapping signed arithmetic).

Kernel services that live outside these sources (the EVL flag, `kcalloc`,
`raw_copy_to_user`, `evl_open_file`) appear as inputs describing their outcome.
-/

namespace RpiAudioEvl

/-! ## errno values and ioctl numbers -/

def ENOENT : Int := 2
def ENOMEM : Int := 12
def EFAULT : Int := 14
def EINVAL : Int := 22

/-- Linux ioctl number layout: direction, size, type and number fields. -/
def ioc_enc (dir type nr size : Nat) : Nat :=
  dir * 2 ^ 30 + size * 2 ^ 16 + type * 2 ^ 8 + nr

def ioc_none (type nr : Nat) : Nat := ioc_enc 0 type nr 0
def ioc_rd (type nr size : Nat) : Nat := ioc_enc 2 type nr size
def ioc_wr (type nr size : Nat) : Nat := ioc_enc 1 type nr size
def ioc_rdwr (type nr size : Nat) : Nat := ioc_enc 3 type nr size

/-- The character `'r'`. -/
def AUDIO_IOC_MAGIC : Nat := 114

def AUDIO_CHANNEL_NAME_SIZE : Nat := 32

/-- Size in bytes of `struct audio_channel_info_data`:
four `uint8_t`, the 32 byte name and two `uint32_t`. -/
def sizeof_audio_channel_info_data : Nat := 4 + AUDIO_CHANNEL_NAME_SIZE + 4 + 4

def sizeof_int : Nat := 4

def AUDIO_IRQ_WAIT : Nat := ioc_rd AUDIO_IOC_MAGIC 1 sizeof_int
def AUDIO_IMMEDIATE_SEND : Nat := ioc_wr AUDIO_IOC_MAGIC 2 sizeof_int
def AUDIO_PROC_START : Nat := ioc_none AUDIO_IOC_MAGIC 3
def AUDIO_USERPROC_FINISHED : Nat := ioc_wr AUDIO_IOC_MAGIC 4 sizeof_int
def AUDIO_PROC_STOP : Nat := ioc_none AUDIO_IOC_MAGIC 5
def AUDIO_GET_INPUT_CHAN_INFO : Nat :=
  ioc_rdwr AUDIO_IOC_MAGIC 11 sizeof_audio_channel_info_data
def AUDIO_GET_OUTPUT_CHAN_INFO : Nat :=
  ioc_rdwr AUDIO_IOC_MAGIC 12 sizeof_audio_channel_info_data

def INPUT_DIRECTION : Nat := 0
def OUTPUT_DIRECTION : Nat := 1

/-! ## Machine integers -/

/-- Width of the C type `unsigned long` on the target. -/
inductive LongWidth where
  | ilp32
  | lp64
  deriving DecidableEq

def LongWidth.bits : LongWidth → Nat
  | .ilp32 => 32
  | .lp64 => 64

/-- Conversion of an integer value to an unsigned type of `bits` bits. -/
def to_unsigned (bits : Nat) (x : Int) : Nat := (x % 2 ^ bits).toNat

/-- Conversion of an integer value to `int` (two's complement, 32 bit). -/
def to_int (x : Int) : Int :=
  if x % 2 ^ 32 < 2 ^ 31 then x % 2 ^ 32 else x % 2 ^ 32 - 2 ^ 32

/-! ## Data model -/

/-- The fields of `struct audio_evl_dev` the session layer reads and writes.
The EVL flag `event_flag` is a kernel object; the outcome of waiting on it is
an input of `audio_driver_oob_ioctl`. -/
structure audio_evl_dev where
  wait_flag : Nat
  buffer_idx : Nat
  kinterrupts : Nat
  deriving DecidableEq

structure audio_channel_info_data where
  sw_ch_id : Nat
  hw_ch_id : Nat
  direction : Nat
  sample_format : Nat
  channel_name : List Nat
  start_offset_in_words : Nat
  stride_in_words : Nat
  deriving DecidableEq

/-- The per-file `struct audio_dev_context`; `i2s_dev` points at the single
device kept in `Module.i2s_dev`. -/
structure audio_dev_context where
  audio_input_info : Option (List audio_channel_info_data)
  audio_output_info : Option (List audio_channel_info_data)
  user_proc_calls : Nat
  deriving DecidableEq

/-- The file-scope variables of `rpi-audio-evl.c` and the device returned by
`bcm2835_get_i2s_dev()`. -/
structure Module where
  audio_input_channels : Nat
  audio_output_channels : Nat
  num_codec_channels : Nat
  audio_format : Nat
  audio_buffer_size : Nat
  session_under_runs : Int
  kernel_interrupts : Nat
  user_proc_completions : Nat
  i2s_dev : audio_evl_dev
  deriving DecidableEq

/-! ## `audio_driver_oob_ioctl` -/

/-- Outcome of the kernel services one out-of-band ioctl call uses:
the return value of `evl_wait_flag` and the number of bytes
`raw_copy_to_user` would leave uncopied. -/
structure OobEnv where
  wait_ret : Int
  copy_left : Nat
  deriving DecidableEq

/-- Kernel contract of `raw_copy_to_user(to, from, n)`: the number of bytes
that could not be copied, at most `n`. -/
def raw_copy_to_user (copy_left n : Nat) : Nat := min copy_left n

/-- Result of an out-of-band ioctl: return value, the `int` delivered to the
caller's memory (if the copy completed) and the module state afterwards. -/
structure OobResult where
  ret : Int
  delivered : Option Int
  state : Module
  deriving DecidableEq

def audio_driver_oob_ioctl (lw : LongWidth) (env : OobEnv) (m : Module)
    (cmd : Nat) : OobResult :=
  let dev := m.i2s_dev
  if cmd = AUDIO_IRQ_WAIT then
    let result := env.wait_ret
    if result ≠ 0 then
      { ret := result, delivered := none, state := m }
    else
      let buffer_idx : Int := if dev.buffer_idx ≠ 0 then 0 else 1
      let result := to_int (raw_copy_to_user env.copy_left sizeof_int)
      if result ≠ 0 then
        { ret := -EFAULT, delivered := none, state := m }
      else
        let kernel_interrupts := to_unsigned 32 dev.kinterrupts
        let user_proc_completions := to_unsigned lw.bits kernel_interrupts
        { ret := result, delivered := some buffer_idx,
          state := { m with kernel_interrupts := kernel_interrupts,
                            user_proc_completions := user_proc_completions } }
  else if cmd = AUDIO_USERPROC_FINISHED then
    let kernel_interrupts := to_unsigned 32 dev.kinterrupts
    let under_runs : Int :=
      to_int (to_unsigned lw.bits
        ((kernel_interrupts : Int) - (m.user_proc_completions : Int)))
    let session_under_runs :=
      if under_runs ≠ 0 then to_int (m.session_under_runs + under_runs)
      else m.session_under_runs
    { ret := 0, delivered := none,
      state := { m with kernel_interrupts := kernel_interrupts,
                        session_under_runs := session_under_runs } }
  else
    { ret := -EINVAL, delivered := none, state := m }

/-- Modelled from the spec: the producer callback of the I2S/DMA layer, which
is not part of these sources. Once per completed period it "increments the
completion counter, flips the active buffer half" (a toggle 0 ⇄ 1) and raises
the completion signal. -/
def on_period_complete (dev : audio_evl_dev) : audio_evl_dev :=
  { dev with kinterrupts := to_unsigned 64 (dev.kinterrupts + 1)
             buffer_idx := if dev.buffer_idx = 0 then 1 else 0 }

/-- One completed period seen from the module state. -/
def period_completes (m : Module) : Module :=
  { m with i2s_dev := on_period_complete m.i2s_dev }

/-- The state after `k` further completed periods. -/
def periods_complete : Nat → Module → Module
  | 0, m => m
  | k + 1, m => periods_complete k (period_completes m)

/-- The local `under_runs` of the `AUDIO_USERPROC_FINISHED` case. -/
def under_runs_of (lw : LongWidth) (m : Module) : Int :=
  to_int (to_unsigned lw.bits
    (((to_unsigned 32 m.i2s_dev.kinterrupts : Nat) : Int)
      - (m.user_proc_completions : Int)))

/-! ## `audio_driver_open` -/

/-- Outcome of the kernel services `audio_driver_open` uses: whether
`kzalloc` of the context and the two `kcalloc` calls return memory, and the
return value of `evl_open_file`. -/
structure OpenEnv where
  ctx_alloc : Bool
  input_alloc : Bool
  output_alloc : Bool
  evl_open_file_ret : Int
  deriving DecidableEq

/-- Every kernel service of `audio_driver_open` succeeds. -/
def open_ok : OpenEnv :=
  { ctx_alloc := true, input_alloc := true, output_alloc := true, evl_open_file_ret := 0 }

/-- Result of `audio_driver_open`: return value, the context stored in
`filp->private_data` (none when open fails and frees it) and the module state. -/
structure OpenResult where
  ret : Int
  private_data : Option audio_dev_context
  state : Module
  deriving DecidableEq

/-- Bytes of the decimal rendering `%d` of a non-negative `int`. -/
def fmt_d (n : Nat) : List Nat := (Nat.toDigits 10 n).map Char.toNat

/-- The bytes of `"IN-"`. -/
def str_IN : List Nat := [73, 78, 45]

/-- The bytes of `"OUT-"`, with which the specification starts the output
labels; the source has no such string. -/
def str_OUT : List Nat := [79, 85, 84, 45]

/-- Effect of `snprintf(buf, size, ...)` on the destination `buf` when the
formatted text is `out`: at most `size - 1` bytes of it, then a NUL; the
bytes of `buf` behind that stay as they were. -/
def snprintf (buf : List Nat) (size : Nat) (out : List Nat) : List Nat :=
  if size = 0 then buf
  else (out.take (size - 1) ++ [0]) ++ buf.drop ((out.take (size - 1)).length + 1)

/-- A `channel_name` field as `kcalloc` returns it: all zero. -/
def zeroed_name : List Nat := List.replicate AUDIO_CHANNEL_NAME_SIZE 0

/-- Body of the first loop of `audio_driver_open` at index `chan_num`. -/
def fill_input_info (m : Module) (chan_num : Nat) : audio_channel_info_data :=
  { sw_ch_id := chan_num % 2 ^ 8
    hw_ch_id := chan_num % 2 ^ 8
    direction := INPUT_DIRECTION
    sample_format := m.audio_format % 2 ^ 8
    channel_name :=
      snprintf zeroed_name (AUDIO_CHANNEL_NAME_SIZE - 1) (str_IN ++ fmt_d chan_num)
    start_offset_in_words := chan_num
    stride_in_words := m.num_codec_channels }

/-- Body of the second loop of `audio_driver_open` at index `chan_num`
(its format string is `"IN-%d"` as well). -/
def fill_output_info (m : Module) (chan_num : Nat) : audio_channel_info_data :=
  { sw_ch_id := chan_num % 2 ^ 8
    hw_ch_id := chan_num % 2 ^ 8
    direction := OUTPUT_DIRECTION
    sample_format := m.audio_format % 2 ^ 8
    channel_name :=
      snprintf zeroed_name (AUDIO_CHANNEL_NAME_SIZE - 1) (str_IN ++ fmt_d chan_num)
    start_offset_in_words := chan_num
    stride_in_words := m.num_codec_channels }

/-- The function `audio_driver_open`. Of the calls it makes after
`evl_open_file`, `stream_open` marks the file as a stream, `evl_init_flag`
initialises the EVL flag and `bcm2835_i2s_buffers_setup` prepares the DMA
buffers; none of them touches the modelled fields. -/
def audio_driver_open (env : OpenEnv) (m : Module) : OpenResult :=
  if env.ctx_alloc = false then
    { ret := -ENOMEM, private_data := none, state := m }
  else if env.input_alloc = false then
    { ret := -ENOMEM, private_data := none, state := m }
  else if env.output_alloc = false then
    { ret := -ENOMEM, private_data := none, state := m }
  else
    let audio_input_info := (List.range m.audio_input_channels).map (fill_input_info m)
    let audio_output_info := (List.range m.audio_output_channels).map (fill_output_info m)
    let ret := env.evl_open_file_ret
    if ret ≠ 0 then
      { ret := ret, private_data := none, state := m }
    else
      let dev := { m.i2s_dev with wait_flag := 0, kinterrupts := 0, buffer_idx := 0 }
      { ret := 0
        private_data := some { audio_input_info := some audio_input_info
                               audio_output_info := some audio_output_info
                               user_proc_calls := 0 }
        state := { m with i2s_dev := dev
                          user_proc_completions := 0
                          kernel_interrupts := 0
                          session_under_runs := 0 } }

/-- The file-scope variables as their initialisers set them
(8 input, 8 output and 8 codec channels, format `INT24_LJ`, 64 frames). -/
def module_defaults : Module :=
  { audio_input_channels := 8
    audio_output_channels := 8
    num_codec_channels := 8
    audio_format := 1
    audio_buffer_size := 64
    session_under_runs := 0
    kernel_interrupts := 0
    user_proc_completions := 0
    i2s_dev := { wait_flag := 0, buffer_idx := 0, kinterrupts := 0 } }

/-! ## `audio_driver_ioctl` -/

/-- Result of an in-band ioctl: return value, the table delivered to the
caller's memory (if the copy completed) and the module state afterwards. -/
structure IoctlResult where
  ret : Int
  delivered : Option (List audio_channel_info_data)
  state : Module
  deriving DecidableEq

/-- The function `audio_driver_ioctl`. `start_stop dev true` and
`start_stop dev false` stand for `bcm2835_i2s_start_stop` with the start and
the stop command; `copy_left` is the number of bytes `raw_copy_to_user`
would leave uncopied. The byte count passed to the copy is a `size_t`. -/
def audio_driver_ioctl (lw : LongWidth)
    (start_stop : audio_evl_dev → Bool → audio_evl_dev) (copy_left : Nat)
    (ctx : audio_dev_context) (m : Module) (cmd : Nat) : IoctlResult :=
  if cmd = AUDIO_PROC_START then
    { ret := 0, delivered := none, state := { m with i2s_dev := start_stop m.i2s_dev true } }
  else if cmd = AUDIO_PROC_STOP then
    { ret := 0, delivered := none, state := { m with i2s_dev := start_stop m.i2s_dev false } }
  else if cmd = AUDIO_GET_INPUT_CHAN_INFO then
    match ctx.audio_input_info with
    | none => { ret := -ENOENT, delivered := none, state := m }
    | some info =>
      let n := to_unsigned lw.bits (sizeof_audio_channel_info_data * m.audio_input_channels)
      let result := to_int (raw_copy_to_user copy_left n)
      if result < 0 then
        { ret := result, delivered := none, state := m }
      else
        { ret := result
          delivered := if raw_copy_to_user copy_left n = 0 then some info else none
          state := m }
  else if cmd = AUDIO_GET_OUTPUT_CHAN_INFO then
    match ctx.audio_output_info with
    | none => { ret := -ENOENT, delivered := none, state := m }
    | some info =>
      let n := to_unsigned lw.bits (sizeof_audio_channel_info_data * m.audio_output_channels)
      let result := to_int (raw_copy_to_user copy_left n)
      if result < 0 then
        { ret := result, delivered := none, state := m }
      else
        { ret := result
          delivered := if raw_copy_to_user copy_left n = 0 then some info else none
          state := m }
  else
    { ret := -EINVAL, delivered := none, state := m }

/-! ## Scenarios -/

/-- The wait returns 0 and the copy to the caller completes. -/
def oob_ok : OobEnv := { wait_ret := 0, copy_left := 0 }

/-- One no-miss cycle: a period completes, `AUDIO_IRQ_WAIT` succeeds, then
`AUDIO_USERPROC_FINISHED` is called once. -/
def no_miss_cycle (lw : LongWidth) (m : Module) : Module :=
  (audio_driver_oob_ioctl lw oob_ok
    (audio_driver_oob_ioctl lw oob_ok (period_completes m) AUDIO_IRQ_WAIT).state
    AUDIO_USERPROC_FINISHED).state

/-- The state after `n` no-miss cycles. -/
def no_miss_cycles (lw : LongWidth) : Nat → Module → Module
  | 0, m => m
  | n + 1, m => no_miss_cycle lw (no_miss_cycles lw n m)

/-- A period completes and a successful `AUDIO_IRQ_WAIT` follows. -/
def wait_after_period (lw : LongWidth) (m : Module) : OobResult :=
  audio_driver_oob_ioctl lw oob_ok (period_completes m) AUDIO_IRQ_WAIT

/-- What `n` successive rounds of `wait_after_period` deliver to the caller. -/
def delivered_indices (lw : LongWidth) : Nat → Module → List (Option Int)
  | 0, _ => []
  | n + 1, m =>
    (wait_after_period lw m).delivered
      :: delivered_indices lw n (wait_after_period lw m).state

/-- A state the driver reaches once the 64 bit completion counter has passed
`2 ^ 32`: the default module is opened, `2 ^ 32` periods complete, an
`AUDIO_IRQ_WAIT` succeeds, and two more periods complete
(`C = 2 ^ 32 + 2`, `A = 0`, `U = 0`). -/
def state_after_wrap : Module :=
  periods_complete 2
    (audio_driver_oob_ioctl LongWidth.lp64 oob_ok
      (periods_complete 4294967296 (audio_driver_open open_ok module_defaults).state)
      AUDIO_IRQ_WAIT).state

/-- A state with one unacknowledged period (`C = 1`, `A = 0`, `U = 0`). -/
def state_one_pending : Module :=
  { module_defaults with i2s_dev := { wait_flag := 1, buffer_idx := 1, kinterrupts := 1 } }

/-- A state whose 64 bit completion counter has reached `2 ^ 32`. -/
def state_wrapped : Module :=
  { module_defaults with
      i2s_dev := { wait_flag := 1, buffer_idx := 0, kinterrupts := 4294967296 } }

/-- A configuration with fewer input channels than codec channels. -/
def module_six_in : Module := { module_defaults with audio_input_channels := 6 }

/-- The input table in the context a call of `audio_driver_open` stored. -/
def input_info_of (r : OpenResult) : Option (List audio_channel_info_data) :=
  r.private_data.bind audio_dev_context.audio_input_info

/-- The output table in the context a call of `audio_driver_open` stored. -/
def output_info_of (r : OpenResult) : Option (List audio_channel_info_data) :=
  r.private_data.bind audio_dev_context.audio_output_info

/-- An active session: the default module opened and three no-miss cycles run. -/
def state_active : Module :=
  no_miss_cycles LongWidth.lp64 3 (audio_driver_open open_ok module_defaults).state

/-- The context of a session opened on the default module. -/
def ctx_defaults : audio_dev_context :=
  { audio_input_info := some ((List.range 8).map (fill_input_info module_defaults))
    audio_output_info := some ((List.range 8).map (fill_output_info module_defaults))
    user_proc_calls := 0 }

/-- An I2S layer whose start/stop command leaves the modelled fields alone. -/
def start_stop_id (dev : audio_evl_dev) (_start : Bool) : audio_evl_dev := dev

/-- A prior state with the counters an earlier session left behind
(`C = 7`, mirror 7, `A = 5`, `U = 2`, buffer index 1, wait flag 1). -/
def state_left_over : Module :=
  { module_defaults with
      session_under_runs := 2
      kernel_interrupts := 7
      user_proc_completions := 5
      i2s_dev := { wait_flag := 1, buffer_idx := 1, kinterrupts := 7 } }

/-! ## Arithmetic of the integer conversions -/

theorem to_int_of_range (x : Int) (h1 : -2 ^ 31 ≤ x) (h2 : x < 2 ^ 31) :
    to_int x = x := by
  unfold to_int
  split_ifs with h <;> omega

theorem to_int_periodic (x y : Int) (h : x % 2 ^ 32 = y % 2 ^ 32) :
    to_int x = to_int y := by
  unfold to_int
  rw [h]

theorem to_unsigned_cast (bits : Nat) (x : Int) :
    ((to_unsigned bits x : Nat) : Int) = x % 2 ^ bits := by
  unfold to_unsigned
  apply Int.toNat_of_nonneg
  apply Int.emod_nonneg
  positivity

theorem to_unsigned_nat (bits n : Nat) : to_unsigned bits (n : Int) = n % 2 ^ bits := by
  have h := to_unsigned_cast bits (n : Int)
  have h2 : ((n % 2 ^ bits : Nat) : Int) = (n : Int) % 2 ^ bits := by push_cast; rfl
  rw [← h2] at h
  exact_mod_cast h

theorem to_int_to_unsigned (lw : LongWidth) (x : Int) :
    to_int (to_unsigned lw.bits x) = to_int x := by
  apply to_int_periodic
  rw [to_unsigned_cast]
  cases lw
  · simp [LongWidth.bits]
  · show x % 2 ^ 64 % 2 ^ 32 = x % 2 ^ 32
    omega

theorem userproc_finished_ne_irq_wait : AUDIO_USERPROC_FINISHED ≠ AUDIO_IRQ_WAIT := by
  norm_num [AUDIO_USERPROC_FINISHED, AUDIO_IRQ_WAIT, ioc_wr, ioc_rd, ioc_enc,
    AUDIO_IOC_MAGIC, sizeof_int]

theorem under_runs_of_eq (lw : LongWidth) (m : Module) :
    under_runs_of lw m
      = to_int ((m.i2s_dev.kinterrupts : Int) - (m.user_proc_completions : Int)) := by
  unfold under_runs_of
  rw [to_int_to_unsigned]
  apply to_int_periodic
  rw [to_unsigned_cast]
  omega

theorem finished_under_runs (lw : LongWidth) (env : OobEnv) (m : Module) :
    (audio_driver_oob_ioctl lw env m AUDIO_USERPROC_FINISHED).state.session_under_runs
      = if under_runs_of lw m ≠ 0
        then to_int (m.session_under_runs + under_runs_of lw m)
        else m.session_under_runs := by
  simp only [audio_driver_oob_ioctl, under_runs_of, userproc_finished_ne_irq_wait,
    if_false, if_true, eq_self_iff_true]

/-- With the difference `C - A` and the new total inside the range of `int`,
`AUDIO_USERPROC_FINISHED` adds the signed difference. -/
theorem finished_adds_signed (lw : LongWidth) (env : OobEnv) (m : Module) (d : Int)
    (hd : d = (m.i2s_dev.kinterrupts : Int) - (m.user_proc_completions : Int))
    (h1 : -2 ^ 31 ≤ d) (h2 : d < 2 ^ 31)
    (h3 : -2 ^ 31 ≤ m.session_under_runs + d) (h4 : m.session_under_runs + d < 2 ^ 31) :
    (audio_driver_oob_ioctl lw env m AUDIO_USERPROC_FINISHED).state.session_under_runs
      = m.session_under_runs + d := by
  have hu : under_runs_of lw m = d := by
    rw [under_runs_of_eq, ← hd]
    exact to_int_of_range d h1 h2
  rw [finished_under_runs, hu]
  split_ifs with h
  · exact to_int_of_range _ h3 h4
  · simp only [ne_eq, not_not] at h
    rw [h, add_zero]

/-! ## The producer -/

theorem periods_complete_succ (k : Nat) (m : Module) :
    periods_complete (k + 1) m = period_completes (periods_complete k m) := by
  induction k generalizing m with
  | zero => rfl
  | succ n ih =>
    show periods_complete (n + 1) (period_completes m) = _
    rw [ih]
    rfl

theorem periods_complete_kinterrupts (k : Nat) (m : Module) :
    ((periods_complete k m).i2s_dev.kinterrupts : Int) % 2 ^ 32
      = ((m.i2s_dev.kinterrupts : Int) + k) % 2 ^ 32 := by
  induction k with
  | zero => simp [periods_complete]
  | succ n ih =>
    rw [periods_complete_succ]
    show ((to_unsigned 64 (((periods_complete n m).i2s_dev.kinterrupts : Int) + 1) : Nat) : Int)
      % 2 ^ 32 = _
    rw [to_unsigned_cast]
    push_cast
    omega

theorem periods_complete_globals (k : Nat) (m : Module) :
    (periods_complete k m).session_under_runs = m.session_under_runs
    ∧ (periods_complete k m).user_proc_completions = m.user_proc_completions
    ∧ (periods_complete k m).kernel_interrupts = m.kernel_interrupts := by
  induction k generalizing m with
  | zero => exact ⟨rfl, rfl, rfl⟩
  | succ n ih => exact ih (period_completes m)

theorem open_ok_state (m : Module) :
    (audio_driver_open open_ok m).state
      = { m with i2s_dev := { m.i2s_dev with wait_flag := 0, kinterrupts := 0, buffer_idx := 0 }
                 user_proc_completions := 0
                 kernel_interrupts := 0
                 session_under_runs := 0 } := by
  simp [audio_driver_open, open_ok]

theorem on_period_complete_kinterrupts (dev : audio_evl_dev) :
    (on_period_complete dev).kinterrupts = (dev.kinterrupts + 1) % 2 ^ 64 := by
  show to_unsigned 64 ((dev.kinterrupts : Int) + 1) = _
  have h : ((dev.kinterrupts : Int) + 1) = ((dev.kinterrupts + 1 : Nat) : Int) := by push_cast; rfl
  rw [h, to_unsigned_nat]

/-- The completion counter after `k` periods, for a counter within `uint64_t`. -/
theorem periods_complete_kinterrupts_exact (k : Nat) (m : Module)
    (h : m.i2s_dev.kinterrupts < 2 ^ 64) :
    (periods_complete k m).i2s_dev.kinterrupts = (m.i2s_dev.kinterrupts + k) % 2 ^ 64 := by
  induction k with
  | zero => exact (Nat.mod_eq_of_lt h).symm
  | succ n ih =>
    rw [periods_complete_succ]
    show (on_period_complete (periods_complete n m).i2s_dev).kinterrupts = _
    rw [on_period_complete_kinterrupts, ih]
    omega

/-! ## `AUDIO_IRQ_WAIT` -/

theorem to_unsigned_idem (lw : LongWidth) (x : Int) :
    to_unsigned lw.bits (to_unsigned 32 x) = to_unsigned 32 x := by
  have h := to_unsigned_cast 32 x
  unfold to_unsigned at h ⊢
  rw [h]
  congr 1
  have h0 : (0 : Int) ≤ x % 2 ^ 32 := Int.emod_nonneg _ (by norm_num)
  have h1 : x % 2 ^ 32 < 2 ^ 32 := Int.emod_lt_of_pos _ (by norm_num)
  apply Int.emod_eq_of_lt h0
  cases lw
  · exact h1
  · show x % 2 ^ 32 < 2 ^ 64
    omega

theorem copy_result_zero_iff (copy_left : Nat) :
    to_int (raw_copy_to_user copy_left sizeof_int) = 0 ↔ copy_left = 0 := by
  unfold raw_copy_to_user sizeof_int to_int
  have h : min copy_left 4 ≤ 4 := Nat.min_le_right _ _
  have h2 : min copy_left 4 = 0 ↔ copy_left = 0 := by omega
  split_ifs <;> omega

theorem irq_wait_success (lw : LongWidth) (env : OobEnv) (m : Module)
    (hw : env.wait_ret = 0) (hc : env.copy_left = 0) :
    audio_driver_oob_ioctl lw env m AUDIO_IRQ_WAIT
      = { ret := 0
          delivered := some (if m.i2s_dev.buffer_idx ≠ 0 then 0 else 1)
          state := { m with
            kernel_interrupts := to_unsigned 32 m.i2s_dev.kinterrupts
            user_proc_completions := to_unsigned 32 m.i2s_dev.kinterrupts } } := by
  have h0 : to_int (raw_copy_to_user env.copy_left sizeof_int) = 0 :=
    (copy_result_zero_iff _).2 hc
  simp only [audio_driver_oob_ioctl, if_true, hw, ne_eq, not_true_eq_false, if_false, h0,
    to_unsigned_idem]

theorem irq_wait_wait_failed (lw : LongWidth) (env : OobEnv) (m : Module)
    (hw : env.wait_ret ≠ 0) :
    audio_driver_oob_ioctl lw env m AUDIO_IRQ_WAIT
      = { ret := env.wait_ret, delivered := none, state := m } := by
  simp only [audio_driver_oob_ioctl, if_true, hw, ne_eq, not_false_eq_true]

theorem irq_wait_copy_failed (lw : LongWidth) (env : OobEnv) (m : Module)
    (hw : env.wait_ret = 0) (hc : env.copy_left ≠ 0) :
    audio_driver_oob_ioctl lw env m AUDIO_IRQ_WAIT
      = { ret := -EFAULT, delivered := none, state := m } := by
  have h0 : to_int (raw_copy_to_user env.copy_left sizeof_int) ≠ 0 :=
    fun h => hc ((copy_result_zero_iff _).1 h)
  simp only [audio_driver_oob_ioctl, if_true, hw, ne_eq, not_true_eq_false, if_false, h0,
    not_false_eq_true]

theorem finished_state (lw : LongWidth) (env : OobEnv) (m : Module) :
    (audio_driver_oob_ioctl lw env m AUDIO_USERPROC_FINISHED).state
      = { m with
          kernel_interrupts := to_unsigned 32 m.i2s_dev.kinterrupts
          session_under_runs :=
            if under_runs_of lw m ≠ 0
            then to_int (m.session_under_runs + under_runs_of lw m)
            else m.session_under_runs } := by
  simp only [audio_driver_oob_ioctl, under_runs_of, userproc_finished_ne_irq_wait,
    if_false, if_true, eq_self_iff_true]

/-! ## Under-run accounting (C1, C2) -/

/-- After a successful `AUDIO_IRQ_WAIT` and `k` further periods the local
`under_runs` of `AUDIO_USERPROC_FINISHED` is `k` converted to `int`. -/
theorem under_runs_after_wait (lw : LongWidth) (m : Module) (k : Nat) :
    under_runs_of lw
        (periods_complete k (audio_driver_oob_ioctl lw oob_ok m AUDIO_IRQ_WAIT).state)
      = to_int k := by
  rw [under_runs_of_eq, irq_wait_success lw oob_ok m rfl rfl]
  apply to_int_periodic
  have h1 := periods_complete_kinterrupts k
    { m with kernel_interrupts := to_unsigned 32 m.i2s_dev.kinterrupts
             user_proc_completions := to_unsigned 32 m.i2s_dev.kinterrupts }
  have h2 := (periods_complete_globals k
    { m with kernel_interrupts := to_unsigned 32 m.i2s_dev.kinterrupts
             user_proc_completions := to_unsigned 32 m.i2s_dev.kinterrupts }).2.1
  have h3 := to_unsigned_cast 32 m.i2s_dev.kinterrupts
  simp only at h1 h2 ⊢
  rw [h2, h3]
  omega

/-- What `AUDIO_USERPROC_FINISHED` finds two periods after a successful wait
taken at a completion counter of `2 ^ 32`. -/
theorem two_periods_after_wrapped_wait (lw : LongWidth) (m : Module)
    (hC : m.i2s_dev.kinterrupts = 4294967296) (hU : m.session_under_runs = 0) :
    (periods_complete 2
        (audio_driver_oob_ioctl lw oob_ok m AUDIO_IRQ_WAIT).state).i2s_dev.kinterrupts
      = 4294967298
    ∧ (periods_complete 2
        (audio_driver_oob_ioctl lw oob_ok m AUDIO_IRQ_WAIT).state).user_proc_completions = 0
    ∧ (periods_complete 2
        (audio_driver_oob_ioctl lw oob_ok m AUDIO_IRQ_WAIT).state).session_under_runs = 0
    ∧ (audio_driver_oob_ioctl lw oob_ok
        (periods_complete 2 (audio_driver_oob_ioctl lw oob_ok m AUDIO_IRQ_WAIT).state)
        AUDIO_USERPROC_FINISHED).state.session_under_runs = 2 := by
  have hu := under_runs_after_wait lw m 2
  have h2 : to_int ((2 : Nat) : Int) = 2 := to_int_of_range 2 (by norm_num) (by norm_num)
  rw [h2] at hu
  have hF := finished_under_runs lw oob_ok
    (periods_complete 2 (audio_driver_oob_ioctl lw oob_ok m AUDIO_IRQ_WAIT).state)
  rw [hu] at hF
  have hW := irq_wait_success lw oob_ok m rfl rfl
  have hk : (audio_driver_oob_ioctl lw oob_ok m AUDIO_IRQ_WAIT).state.i2s_dev.kinterrupts
      = 4294967296 := by
    rw [hW]
    exact hC
  have hs : (audio_driver_oob_ioctl lw oob_ok m AUDIO_IRQ_WAIT).state.session_under_runs
      = 0 := by
    rw [hW]
    exact hU
  have ha : (audio_driver_oob_ioctl lw oob_ok m AUDIO_IRQ_WAIT).state.user_proc_completions
      = 0 := by
    rw [hW]
    show to_unsigned 32 (m.i2s_dev.kinterrupts : Int) = 0
    rw [to_unsigned_nat, hC]
    norm_num
  have hg := periods_complete_globals 2 (audio_driver_oob_ioctl lw oob_ok m AUDIO_IRQ_WAIT).state
  have hUU : (periods_complete 2
      (audio_driver_oob_ioctl lw oob_ok m AUDIO_IRQ_WAIT).state).session_under_runs = 0 := by
    rw [hg.1, hs]
  refine ⟨?_, ?_, hUU, ?_⟩
  · rw [periods_complete_kinterrupts_exact _ _ (by rw [hk]; norm_num), hk]
    norm_num
  · rw [hg.2.1, ha]
  · rw [hF, hUU]
    exact to_int_of_range 2 (by norm_num) (by norm_num)

/-- C1 (counterexample): in the reachable state `state_after_wrap`
(`C = 2 ^ 32 + 2`, `A = 0`, `U = 0`: a wait succeeded at `C = 2 ^ 32` and two
periods completed since) one `AUDIO_USERPROC_FINISHED` leaves the under-run
count at 2, the number of periods since the wait, and not at
`U + max(0, C - A) = 4294967298`. -/
theorem C1_counterexample_wrapped_counter :
    state_after_wrap.i2s_dev.kinterrupts = 4294967298
    ∧ state_after_wrap.user_proc_completions = 0
    ∧ state_after_wrap.session_under_runs = 0
    ∧ (audio_driver_oob_ioctl LongWidth.lp64 oob_ok state_after_wrap
        AUDIO_USERPROC_FINISHED).state.session_under_runs = 2
    ∧ (audio_driver_oob_ioctl LongWidth.lp64 oob_ok state_after_wrap
        AUDIO_USERPROC_FINISHED).state.session_under_runs
      ≠ state_after_wrap.session_under_runs
        + max 0 ((state_after_wrap.i2s_dev.kinterrupts : Int)
                  - (state_after_wrap.user_proc_completions : Int)) := by
  have hX : (periods_complete 4294967296
      (audio_driver_open open_ok module_defaults).state).i2s_dev.kinterrupts = 4294967296 := by
    rw [periods_complete_kinterrupts_exact _ _ (by rw [open_ok_state]; norm_num), open_ok_state]
    norm_num
  have hXU : (periods_complete 4294967296
      (audio_driver_open open_ok module_defaults).state).session_under_runs = 0 := by
    rw [(periods_complete_globals 4294967296 _).1, open_ok_state]
  obtain ⟨hC, hA, hU, hF⟩ := two_periods_after_wrapped_wait LongWidth.lp64 _ hX hXU
  have e : state_after_wrap = periods_complete 2
      (audio_driver_oob_ioctl LongWidth.lp64 oob_ok
        (periods_complete 4294967296 (audio_driver_open open_ok module_defaults).state)
        AUDIO_IRQ_WAIT).state := by
    simp only [state_after_wrap]
  rw [e]
  refine ⟨hC, hA, hU, hF, ?_⟩
  rw [hF, hU, hC, hA]
  norm_num

/-- C1 (amended): in every session state whose acknowledged counter does not
exceed the completion counter, with `C - A` below `2 ^ 31` and the old and new
totals within `int`, one `AUDIO_USERPROC_FINISHED` call leaves the under-run
count at exactly `U + max(0, C - A)`, so the amount added is not negative; and
`k` periods after a successful `AUDIO_IRQ_WAIT` (with `k < 2 ^ 31`), whatever
the completion counter was at the wait, the call adds exactly `k`: the
difference is formed on the 32 bit mirror of the completion counter. -/
theorem C1_finished_adds_difference (lw : LongWidth) (env : OobEnv) (m : Module) (k : Nat) :
    (m.user_proc_completions ≤ m.i2s_dev.kinterrupts →
        (m.i2s_dev.kinterrupts : Int) - (m.user_proc_completions : Int) < 2 ^ 31 →
        -2 ^ 31 ≤ m.session_under_runs →
        m.session_under_runs
          + ((m.i2s_dev.kinterrupts : Int) - (m.user_proc_completions : Int)) < 2 ^ 31 →
        (audio_driver_oob_ioctl lw env m AUDIO_USERPROC_FINISHED).state.session_under_runs
            = m.session_under_runs
              + max 0 ((m.i2s_dev.kinterrupts : Int) - (m.user_proc_completions : Int))
        ∧ m.session_under_runs
            ≤ (audio_driver_oob_ioctl lw env m
                AUDIO_USERPROC_FINISHED).state.session_under_runs)
    ∧ ((k : Int) < 2 ^ 31 → -2 ^ 31 ≤ m.session_under_runs →
        m.session_under_runs + k < 2 ^ 31 →
        (audio_driver_oob_ioctl lw env
            (periods_complete k (audio_driver_oob_ioctl lw oob_ok m AUDIO_IRQ_WAIT).state)
            AUDIO_USERPROC_FINISHED).state.session_under_runs
          = m.session_under_runs + k) := by
  constructor
  · intro hle hd hU hS
    have h0 : (0 : Int) ≤ (m.i2s_dev.kinterrupts : Int) - (m.user_proc_completions : Int) := by
      omega
    have h := finished_adds_signed lw env m _ rfl (by omega) hd (by omega) hS
    rw [h, max_eq_right h0]
    exact ⟨rfl, by omega⟩
  · intro hk h1 h2
    have hU : (periods_complete k
        (audio_driver_oob_ioctl lw oob_ok m AUDIO_IRQ_WAIT).state).session_under_runs
          = m.session_under_runs := by
      rw [(periods_complete_globals k _).1, irq_wait_success lw oob_ok m rfl rfl]
    rw [finished_under_runs, under_runs_after_wait, hU,
      to_int_of_range (k : Int) (by omega) hk]
    split_ifs with h
    · exact to_int_of_range _ (by omega) h2
    · simp only [ne_eq, not_not] at h
      rw [h, add_zero]

/-- C1 (witness): with one unacknowledged period (`C = 1`, `A = 0`) the call
adds `max(0, 1 - 0) = 1`, and three periods after a successful wait in the
default state it adds exactly three. -/
theorem C1_finished_adds_difference_witness :
    ((state_one_pending.user_proc_completions ≤ state_one_pending.i2s_dev.kinterrupts
        ∧ (state_one_pending.i2s_dev.kinterrupts : Int)
            - (state_one_pending.user_proc_completions : Int) < 2 ^ 31
        ∧ -2 ^ 31 ≤ state_one_pending.session_under_runs
        ∧ state_one_pending.session_under_runs
            + ((state_one_pending.i2s_dev.kinterrupts : Int)
                - (state_one_pending.user_proc_completions : Int)) < 2 ^ 31)
      ∧ (audio_driver_oob_ioctl LongWidth.ilp32 oob_ok state_one_pending
          AUDIO_USERPROC_FINISHED).state.session_under_runs
        = state_one_pending.session_under_runs
          + max 0 ((state_one_pending.i2s_dev.kinterrupts : Int)
                    - (state_one_pending.user_proc_completions : Int)))
    ∧ ((((3 : Nat) : Int) < 2 ^ 31 ∧ -2 ^ 31 ≤ module_defaults.session_under_runs
        ∧ module_defaults.session_under_runs + ((3 : Nat) : Int) < 2 ^ 31)
      ∧ (audio_driver_oob_ioctl LongWidth.lp64 oob_ok
            (periods_complete 3
              (audio_driver_oob_ioctl LongWidth.lp64 oob_ok module_defaults
                AUDIO_IRQ_WAIT).state)
            AUDIO_USERPROC_FINISHED).state.session_under_runs
          = module_defaults.session_under_runs + ((3 : Nat) : Int)) :=
  have a1 : state_one_pending.user_proc_completions
      ≤ state_one_pending.i2s_dev.kinterrupts := by decide
  have a2 : (state_one_pending.i2s_dev.kinterrupts : Int)
      - (state_one_pending.user_proc_completions : Int) < 2 ^ 31 := by
    simp [state_one_pending, module_defaults]
  have a3 : -2 ^ 31 ≤ state_one_pending.session_under_runs := by
    simp [state_one_pending, module_defaults]
  have a4 : state_one_pending.session_under_runs
      + ((state_one_pending.i2s_dev.kinterrupts : Int)
          - (state_one_pending.user_proc_completions : Int)) < 2 ^ 31 := by
    simp [state_one_pending, module_defaults]
  have h1 : ((3 : Nat) : Int) < 2 ^ 31 := by norm_num
  have h2 : -2 ^ 31 ≤ module_defaults.session_under_runs := by
    simp [module_defaults]
  have h3 : module_defaults.session_under_runs + ((3 : Nat) : Int) < 2 ^ 31 := by
    simp [module_defaults]
  ⟨⟨⟨a1, a2, a3, a4⟩,
      ((C1_finished_adds_difference LongWidth.ilp32 oob_ok state_one_pending 0).1
        a1 a2 a3 a4).1⟩,
    ⟨h1, h2, h3⟩,
      (C1_finished_adds_difference LongWidth.lp64 oob_ok module_defaults 3).2 h1 h2 h3⟩

/-- C3 (counterexample): with `dev->kinterrupts = 2 ^ 32` a successful
`AUDIO_IRQ_WAIT` returns 0 and leaves `user_proc_completions` at 0, not at the
completion counter 4294967296. -/
theorem C3_counterexample_truncated_ack :
    (audio_driver_oob_ioctl LongWidth.lp64 oob_ok state_wrapped AUDIO_IRQ_WAIT).ret = 0
    ∧ (audio_driver_oob_ioctl LongWidth.lp64 oob_ok state_wrapped
        AUDIO_IRQ_WAIT).state.user_proc_completions = 0
    ∧ (audio_driver_oob_ioctl LongWidth.lp64 oob_ok state_wrapped
        AUDIO_IRQ_WAIT).state.i2s_dev.kinterrupts = 4294967296 := by
  rw [irq_wait_success LongWidth.lp64 oob_ok state_wrapped rfl rfl]
  refine ⟨rfl, ?_, rfl⟩
  show to_unsigned 32 ((4294967296 : Nat) : Int) = 0
  rw [to_unsigned_nat]
  norm_num

/-- C3 (amended): after a successful `AUDIO_IRQ_WAIT` the acknowledged counter
`user_proc_completions` (and the mirror `kernel_interrupts`) equals the
completion counter `dev->kinterrupts` reduced modulo `2 ^ 32`, hence the
counter itself while that is below `2 ^ 32`; `dev->kinterrupts` and
`session_under_runs` are unchanged. -/
theorem C3_wait_acknowledges (lw : LongWidth) (env : OobEnv) (m : Module)
    (hw : env.wait_ret = 0) (hc : env.copy_left = 0) :
    (audio_driver_oob_ioctl lw env m AUDIO_IRQ_WAIT).ret = 0
    ∧ (audio_driver_oob_ioctl lw env m AUDIO_IRQ_WAIT).state.user_proc_completions
      = m.i2s_dev.kinterrupts % 2 ^ 32
    ∧ (audio_driver_oob_ioctl lw env m AUDIO_IRQ_WAIT).state.kernel_interrupts
      = m.i2s_dev.kinterrupts % 2 ^ 32
    ∧ (m.i2s_dev.kinterrupts < 2 ^ 32 →
        (audio_driver_oob_ioctl lw env m AUDIO_IRQ_WAIT).state.user_proc_completions
          = m.i2s_dev.kinterrupts)
    ∧ (audio_driver_oob_ioctl lw env m AUDIO_IRQ_WAIT).state.i2s_dev = m.i2s_dev
    ∧ (audio_driver_oob_ioctl lw env m AUDIO_IRQ_WAIT).state.session_under_runs
      = m.session_under_runs := by
  rw [irq_wait_success lw env m hw hc]
  refine ⟨rfl, to_unsigned_nat 32 _, to_unsigned_nat 32 _, fun h => ?_, rfl, rfl⟩
  show to_unsigned 32 (m.i2s_dev.kinterrupts : Int) = m.i2s_dev.kinterrupts
  rw [to_unsigned_nat]
  exact Nat.mod_eq_of_lt h

/-- C3 (witness): a successful wait in the state with `C = 1`. -/
theorem C3_wait_acknowledges_witness :
    oob_ok.wait_ret = 0 ∧ oob_ok.copy_left = 0
    ∧ state_one_pending.i2s_dev.kinterrupts < 2 ^ 32
    ∧ (audio_driver_oob_ioctl LongWidth.ilp32 oob_ok state_one_pending
        AUDIO_IRQ_WAIT).state.user_proc_completions
      = state_one_pending.i2s_dev.kinterrupts :=
  have h : state_one_pending.i2s_dev.kinterrupts < 2 ^ 32 := by
    simp [state_one_pending]
  ⟨rfl, rfl, h,
    (C3_wait_acknowledges LongWidth.ilp32 oob_ok state_one_pending rfl rfl).2.2.2.1 h⟩

/-! ## No-miss operation (C4, C5) -/

theorem no_miss_cycle_eq (lw : LongWidth) (m : Module) :
    no_miss_cycle lw m
      = { m with i2s_dev := on_period_complete m.i2s_dev
                 kernel_interrupts := (on_period_complete m.i2s_dev).kinterrupts % 2 ^ 32
                 user_proc_completions := (on_period_complete m.i2s_dev).kinterrupts % 2 ^ 32 } := by
  unfold no_miss_cycle
  rw [irq_wait_success lw oob_ok (period_completes m) rfl rfl, finished_state]
  have hu : under_runs_of lw
      { period_completes m with
        kernel_interrupts := to_unsigned 32 (period_completes m).i2s_dev.kinterrupts
        user_proc_completions := to_unsigned 32 (period_completes m).i2s_dev.kinterrupts } = 0 := by
    rw [under_runs_of_eq]
    have h3 := to_unsigned_cast 32 (period_completes m).i2s_dev.kinterrupts
    simp only
    rw [h3]
    have : to_int 0 = 0 := to_int_of_range 0 (by norm_num) (by norm_num)
    rw [← this]
    apply to_int_periodic
    omega
  rw [hu]
  simp only [ne_eq, not_true_eq_false, if_false, to_unsigned_nat]
  rfl

/-- The counters after `n` no-miss cycles from a fresh session. -/
theorem no_miss_cycles_fresh (lw : LongWidth) (m0 : Module) (n : Nat) :
    (no_miss_cycles lw n (audio_driver_open open_ok m0).state).session_under_runs = 0
    ∧ (no_miss_cycles lw n (audio_driver_open open_ok m0).state).user_proc_completions
      = n % 2 ^ 32
    ∧ (no_miss_cycles lw n (audio_driver_open open_ok m0).state).i2s_dev.kinterrupts
      = n % 2 ^ 64 := by
  induction n with
  | zero =>
    rw [open_ok_state]
    exact ⟨rfl, rfl, rfl⟩
  | succ k ih =>
    obtain ⟨h1, _, h3⟩ := ih
    show (no_miss_cycle lw _).session_under_runs = 0
      ∧ (no_miss_cycle lw _).user_proc_completions = _
      ∧ (no_miss_cycle lw _).i2s_dev.kinterrupts = _
    rw [no_miss_cycle_eq]
    simp only [on_period_complete_kinterrupts, h3]
    refine ⟨h1, ?_, ?_⟩ <;> omega

/-- C4 (counterexample): after `2 ^ 32` no-miss cycles from a fresh session the
acknowledged counter `user_proc_completions` is 0 while the completion counter
`dev->kinterrupts` is 4294967296: they are not both equal to the number of
cycles. -/
theorem C4_counterexample_after_wrap :
    (no_miss_cycles LongWidth.lp64 4294967296
      (audio_driver_open open_ok module_defaults).state).user_proc_completions = 0
    ∧ (no_miss_cycles LongWidth.lp64 4294967296
      (audio_driver_open open_ok module_defaults).state).i2s_dev.kinterrupts = 4294967296 := by
  obtain ⟨_, h2, h3⟩ := no_miss_cycles_fresh LongWidth.lp64 module_defaults 4294967296
  rw [h2, h3]
  constructor <;> norm_num

/-- C4 (amended): starting from a freshly opened session, after every number
`n` of no-miss cycles `session_under_runs` is 0 and the acknowledged counter
equals the completion counter reduced modulo `2 ^ 32` (the acknowledged counter
is `n mod 2 ^ 32`, the completion counter `n mod 2 ^ 64`); for `n < 2 ^ 32` both
counters equal `n`. -/
theorem C4_no_miss_invariant (lw : LongWidth) (m0 : Module) (n : Nat) :
    (no_miss_cycles lw n (audio_driver_open open_ok m0).state).session_under_runs = 0
    ∧ (no_miss_cycles lw n (audio_driver_open open_ok m0).state).user_proc_completions
      = (no_miss_cycles lw n (audio_driver_open open_ok m0).state).i2s_dev.kinterrupts
          % 2 ^ 32
    ∧ (no_miss_cycles lw n (audio_driver_open open_ok m0).state).user_proc_completions
      = n % 2 ^ 32
    ∧ (no_miss_cycles lw n (audio_driver_open open_ok m0).state).i2s_dev.kinterrupts
      = n % 2 ^ 64
    ∧ (n < 2 ^ 32 →
        (no_miss_cycles lw n (audio_driver_open open_ok m0).state).user_proc_completions = n
        ∧ (no_miss_cycles lw n
            (audio_driver_open open_ok m0).state).i2s_dev.kinterrupts = n) := by
  obtain ⟨h1, h2, h3⟩ := no_miss_cycles_fresh lw m0 n
  refine ⟨h1, ?_, h2, h3, fun hn => ?_⟩
  · rw [h2, h3]; omega
  · rw [h2, h3]; omega

/-- C4 (witness): 1000 no-miss cycles after opening the default module leave
both counters at 1000. -/
theorem C4_no_miss_invariant_witness :
    1000 < 2 ^ 32
    ∧ (no_miss_cycles LongWidth.lp64 1000
        (audio_driver_open open_ok module_defaults).state).user_proc_completions = 1000
    ∧ (no_miss_cycles LongWidth.lp64 1000
        (audio_driver_open open_ok module_defaults).state).i2s_dev.kinterrupts = 1000 :=
  ⟨by norm_num,
    (C4_no_miss_invariant LongWidth.lp64 module_defaults 1000).2.2.2.2 (by norm_num)⟩

theorem wait_after_period_eq (lw : LongWidth) (m : Module) :
    (wait_after_period lw m).delivered
        = some (if m.i2s_dev.buffer_idx = 0 then 0 else 1)
    ∧ (wait_after_period lw m).state.i2s_dev.buffer_idx
        = if m.i2s_dev.buffer_idx = 0 then 1 else 0 := by
  unfold wait_after_period
  rw [irq_wait_success lw oob_ok (period_completes m) rfl rfl]
  constructor
  · show some (if (if m.i2s_dev.buffer_idx = 0 then 1 else 0) ≠ 0 then (0 : Int) else 1) = _
    split_ifs <;> simp_all
  · rfl

theorem delivered_indices_from (lw : LongWidth) (n : Nat) (m : Module) (b : Nat)
    (hb : b < 2) (hm : m.i2s_dev.buffer_idx = b) :
    delivered_indices lw n m
      = (List.range n).map (fun j => some (((j + b) % 2 : Nat) : Int)) := by
  induction n generalizing m b with
  | zero => rfl
  | succ k ih =>
    obtain ⟨hd, hs⟩ := wait_after_period_eq lw m
    show (wait_after_period lw m).delivered
        :: delivered_indices lw k (wait_after_period lw m).state = _
    rw [List.range_succ_eq_map, List.map_cons, List.map_map, hd]
    have hb2 : b = 0 ∨ b = 1 := by omega
    rcases hb2 with h0 | h1
    · subst h0
      rw [ih (wait_after_period lw m).state 1 (by norm_num) (by rw [hs, hm]; rfl)]
      rw [hm]
      refine congrArg₂ _ rfl (List.map_congr_left fun j _ => ?_)
      simp only [Function.comp, Nat.succ_eq_add_one, add_zero]
    · subst h1
      rw [ih (wait_after_period lw m).state 0 (by norm_num) (by rw [hs, hm]; rfl)]
      rw [hm]
      refine congrArg₂ _ rfl (List.map_congr_left fun j _ => ?_)
      simp only [Function.comp, Nat.succ_eq_add_one, add_zero]
      congr 2
      omega

/-- C5: starting from a freshly opened session, when one period completes
(the producer toggling `dev->buffer_idx`) before each successful
`AUDIO_IRQ_WAIT`, the `j`-th index written to the caller is `j mod 2`: the
indices are 0, 1, 0, 1, ..., each 0 or 1, each different from the one before,
the first 0. -/
theorem C5_delivered_indices_alternate (lw : LongWidth) (m0 : Module) (n : Nat) :
    delivered_indices lw n (audio_driver_open open_ok m0).state
      = (List.range n).map (fun j => some ((j % 2 : Nat) : Int)) := by
  have h := delivered_indices_from lw n (audio_driver_open open_ok m0).state 0 (by norm_num)
    (by rw [open_ok_state])
  simpa using h

/-! ## Channel descriptor tables (C6, C7) -/

theorem open_ok_ret (m : Module) : (audio_driver_open open_ok m).ret = 0 := by
  simp [audio_driver_open, open_ok]

theorem open_ok_input_info (m : Module) :
    input_info_of (audio_driver_open open_ok m)
      = some ((List.range m.audio_input_channels).map (fill_input_info m)) := by
  simp [input_info_of, audio_driver_open, open_ok]

theorem open_ok_output_info (m : Module) :
    output_info_of (audio_driver_open open_ok m)
      = some ((List.range m.audio_output_channels).map (fill_output_info m)) := by
  simp [output_info_of, audio_driver_open, open_ok]

theorem input_offsets (m : Module) (n : Nat) :
    ((List.range n).map (fill_input_info m)).map audio_channel_info_data.start_offset_in_words
      = List.range n := by
  rw [List.map_map]
  exact List.map_id _

theorem output_offsets (m : Module) (n : Nat) :
    ((List.range n).map (fill_output_info m)).map audio_channel_info_data.start_offset_in_words
      = List.range n := by
  rw [List.map_map]
  exact List.map_id _

theorem input_strides (m : Module) (n : Nat) :
    ((List.range n).map (fill_input_info m)).map audio_channel_info_data.stride_in_words
      = List.replicate n m.num_codec_channels := by
  rw [List.map_map]
  apply List.eq_replicate_iff.2
  refine ⟨by simp, fun b hb => ?_⟩
  obtain ⟨a, _, rfl⟩ := List.mem_map.1 hb
  rfl

theorem output_strides (m : Module) (n : Nat) :
    ((List.range n).map (fill_output_info m)).map audio_channel_info_data.stride_in_words
      = List.replicate n m.num_codec_channels := by
  rw [List.map_map]
  apply List.eq_replicate_iff.2
  refine ⟨by simp, fun b hb => ?_⟩
  obtain ⟨a, _, rfl⟩ := List.mem_map.1 hb
  rfl

/-- C6 (counterexample): with 6 input channels and 8 codec channels the input
table built by `audio_driver_open` has 6 entries whose `stride_in_words` are
all 8, not the table length 6. -/
theorem C6_counterexample_stride :
    (input_info_of (audio_driver_open open_ok module_six_in)).map List.length = some 6
    ∧ (input_info_of (audio_driver_open open_ok module_six_in)).map
        (List.map audio_channel_info_data.stride_in_words) = some [8, 8, 8, 8, 8, 8] := by
  rw [open_ok_input_info]
  constructor
  · simp [module_six_in]
  · simp only [Option.map_some', input_strides]
    rfl

/-- C6 (amended): for every configuration a successful `audio_driver_open`
builds, for each direction with channel count `N`, a table of `N` entries
whose `start_offset_in_words` are `0, 1, ..., N-1` in order and whose
`stride_in_words` all equal `num_codec_channels`, the same value for both
directions; the stride is the table length when `num_codec_channels = N`. -/
theorem C6_descriptor_tables (m : Module) :
    (audio_driver_open open_ok m).ret = 0
    ∧ ((input_info_of (audio_driver_open open_ok m)).map List.length
        = some m.audio_input_channels
      ∧ (input_info_of (audio_driver_open open_ok m)).map
          (List.map audio_channel_info_data.start_offset_in_words)
        = some (List.range m.audio_input_channels)
      ∧ (input_info_of (audio_driver_open open_ok m)).map
          (List.map audio_channel_info_data.stride_in_words)
        = some (List.replicate m.audio_input_channels m.num_codec_channels)
      ∧ (m.num_codec_channels = m.audio_input_channels →
          (input_info_of (audio_driver_open open_ok m)).map
              (List.map audio_channel_info_data.stride_in_words)
            = (input_info_of (audio_driver_open open_ok m)).map
                (fun t => List.replicate t.length t.length)))
    ∧ ((output_info_of (audio_driver_open open_ok m)).map List.length
        = some m.audio_output_channels
      ∧ (output_info_of (audio_driver_open open_ok m)).map
          (List.map audio_channel_info_data.start_offset_in_words)
        = some (List.range m.audio_output_channels)
      ∧ (output_info_of (audio_driver_open open_ok m)).map
          (List.map audio_channel_info_data.stride_in_words)
        = some (List.replicate m.audio_output_channels m.num_codec_channels)
      ∧ (m.num_codec_channels = m.audio_output_channels →
          (output_info_of (audio_driver_open open_ok m)).map
              (List.map audio_channel_info_data.stride_in_words)
            = (output_info_of (audio_driver_open open_ok m)).map
                (fun t => List.replicate t.length t.length))) := by
  rw [open_ok_input_info, open_ok_output_info]
  simp only [Option.map_some', input_offsets, output_offsets, input_strides, output_strides,
    List.length_map, List.length_range]
  refine ⟨open_ok_ret m, ⟨trivial, trivial, trivial, fun h => ?_⟩,
    ⟨trivial, trivial, trivial, fun h => ?_⟩⟩
  · rw [h]
  · rw [h]

/-- C6 (witness): the default configuration has 8 codec channels and 8 input
channels, so every input entry built for it has stride 8, the table length. -/
theorem C6_descriptor_tables_witness :
    module_defaults.num_codec_channels = module_defaults.audio_input_channels
    ∧ (input_info_of (audio_driver_open open_ok module_defaults)).map
          (List.map audio_channel_info_data.stride_in_words)
        = (input_info_of (audio_driver_open open_ok module_defaults)).map
            (fun t => List.replicate t.length t.length) :=
  ⟨rfl, (C6_descriptor_tables module_defaults).2.1.2.2.2 rfl⟩

/-- C7 (the code at the failing input): for every configuration and index the
second loop of `audio_driver_open` writes the same `channel_name` as the
first; opening the default module labels output entry 0 with the bytes of
`"IN-0"` followed by NULs, exactly as input entry 0, not `"OUT-0"`. -/
theorem C7_output_labelled_in (m : Module) (i : Nat) :
    (fill_output_info m i).channel_name = (fill_input_info m i).channel_name
    ∧ (output_info_of (audio_driver_open open_ok module_defaults)).map
        (fun t => (t.map audio_channel_info_data.channel_name).head?)
      = some (some ([73, 78, 45, 48] ++ List.replicate 28 0))
    ∧ (input_info_of (audio_driver_open open_ok module_defaults)).map
        (fun t => (t.map audio_channel_info_data.channel_name).head?)
      = some (some ([73, 78, 45, 48] ++ List.replicate 28 0))
    ∧ (snprintf zeroed_name (AUDIO_CHANNEL_NAME_SIZE - 1) (str_OUT ++ fmt_d 0))
      = [79, 85, 84, 45, 48] ++ List.replicate 27 0 := by
  refine ⟨rfl, ?_, ?_, ?_⟩
  · rw [open_ok_output_info]; decide
  · rw [open_ok_input_info]; decide
  · decide

/-! ## Opening while a session is active (C8) -/

theorem open_failed_state (env : OpenEnv) (m : Module)
    (h : (audio_driver_open env m).ret ≠ 0) :
    (audio_driver_open env m).state = m ∧ (audio_driver_open env m).private_data = none := by
  by_cases h1 : env.ctx_alloc = false
  · simp [audio_driver_open, h1]
  by_cases h2 : env.input_alloc = false
  · simp [audio_driver_open, h1, h2]
  by_cases h3 : env.output_alloc = false
  · simp [audio_driver_open, h1, h2, h3]
  by_cases h4 : env.evl_open_file_ret = 0
  · simp [audio_driver_open, h1, h2, h3, h4] at h
  · simp [audio_driver_open, h1, h2, h3, h4]

theorem open_ret_zero_iff (env : OpenEnv) (m : Module) :
    (audio_driver_open env m).ret = 0 ↔ env = open_ok := by
  constructor
  · intro h
    by_cases h1 : env.ctx_alloc = false
    · simp [audio_driver_open, h1, ENOMEM] at h
    by_cases h2 : env.input_alloc = false
    · simp [audio_driver_open, h1, h2, ENOMEM] at h
    by_cases h3 : env.output_alloc = false
    · simp [audio_driver_open, h1, h2, h3, ENOMEM] at h
    by_cases h4 : env.evl_open_file_ret = 0
    · cases env
      simp only [open_ok, OpenEnv.mk.injEq]
      simp only [Bool.not_eq_false] at h1 h2 h3 h4
      exact ⟨h1, h2, h3, h4⟩
    · simp [audio_driver_open, h1, h2, h3, h4] at h
  · rintro rfl
    exact open_ok_ret m

/-- C8 (counterexample): in the active session `state_active` (completion and
acknowledged counter 3, buffer index 1) a second `audio_driver_open` returns 0
and resets the completion counter, the acknowledged counter and the buffer
index of that session to 0. -/
theorem C8_counterexample_second_open :
    (state_active.i2s_dev.kinterrupts = 3 ∧ state_active.user_proc_completions = 3
      ∧ state_active.i2s_dev.buffer_idx = 1)
    ∧ (audio_driver_open open_ok state_active).ret = 0
    ∧ (audio_driver_open open_ok state_active).state.i2s_dev.kinterrupts = 0
    ∧ (audio_driver_open open_ok state_active).state.user_proc_completions = 0
    ∧ (audio_driver_open open_ok state_active).state.i2s_dev.buffer_idx = 0
    ∧ (audio_driver_open open_ok state_active).state ≠ state_active := by
  have h : (state_active.i2s_dev.kinterrupts = 3 ∧ state_active.user_proc_completions = 3
      ∧ state_active.i2s_dev.buffer_idx = 1) := by decide
  refine ⟨h, open_ok_ret _, ?_, ?_, ?_, ?_⟩
  · rw [open_ok_state]
  · rw [open_ok_state]
  · rw [open_ok_state]
  · intro hc
    have h3 := h.1
    rw [← hc, open_ok_state] at h3
    exact absurd h3 (by decide)

/-- C8 (amended): `audio_driver_open` does not look at whether a session is
already open. In every state, when its allocations and `evl_open_file`
succeed it returns 0, stores a new context and sets the completion counter,
the acknowledged counter, the under-run count, the buffer index and the wait
flag to 0; it returns an error only when an allocation or `evl_open_file`
fails, and then it stores no context and leaves the state unchanged. -/
theorem C8_open_not_exclusive (env : OpenEnv) (m : Module) :
    ((audio_driver_open open_ok m).ret = 0
      ∧ (audio_driver_open open_ok m).private_data ≠ none
      ∧ (audio_driver_open open_ok m).state.i2s_dev.kinterrupts = 0
      ∧ (audio_driver_open open_ok m).state.user_proc_completions = 0
      ∧ (audio_driver_open open_ok m).state.session_under_runs = 0
      ∧ (audio_driver_open open_ok m).state.i2s_dev.buffer_idx = 0
      ∧ (audio_driver_open open_ok m).state.i2s_dev.wait_flag = 0)
    ∧ ((audio_driver_open env m).ret ≠ 0 ↔ env ≠ open_ok)
    ∧ ((audio_driver_open env m).ret ≠ 0 →
        (audio_driver_open env m).state = m
        ∧ (audio_driver_open env m).private_data = none) := by
  refine ⟨⟨open_ok_ret m, ?_, ?_, ?_, ?_, ?_, ?_⟩, not_congr (open_ret_zero_iff env m),
    open_failed_state env m⟩
  · simp [audio_driver_open, open_ok]
  all_goals rw [open_ok_state]

/-- C8 (witness): when the output table cannot be allocated, a second open on
the active session fails and leaves its state unchanged. -/
theorem C8_open_not_exclusive_witness :
    (audio_driver_open { open_ok with output_alloc := false } state_active).ret ≠ 0
    ∧ (audio_driver_open { open_ok with output_alloc := false } state_active).state
        = state_active :=
  have h : (audio_driver_open { open_ok with output_alloc := false } state_active).ret ≠ 0 := by
    decide
  ⟨h, ((C8_open_not_exclusive { open_ok with output_alloc := false } state_active).2.2 h).1⟩

/-! ## Copy faults of the channel-info ioctls (C9) -/

theorem get_input_ne (c : Nat) (h : c = AUDIO_PROC_START ∨ c = AUDIO_PROC_STOP) :
    AUDIO_GET_INPUT_CHAN_INFO ≠ c := by
  rcases h with rfl | rfl <;>
    norm_num [AUDIO_GET_INPUT_CHAN_INFO, AUDIO_PROC_START, AUDIO_PROC_STOP, ioc_rdwr,
      ioc_none, ioc_enc, AUDIO_IOC_MAGIC, sizeof_audio_channel_info_data,
      AUDIO_CHANNEL_NAME_SIZE]

theorem get_output_ne (c : Nat)
    (h : c = AUDIO_PROC_START ∨ c = AUDIO_PROC_STOP ∨ c = AUDIO_GET_INPUT_CHAN_INFO) :
    AUDIO_GET_OUTPUT_CHAN_INFO ≠ c := by
  rcases h with rfl | rfl | rfl <;>
    norm_num [AUDIO_GET_OUTPUT_CHAN_INFO, AUDIO_GET_INPUT_CHAN_INFO, AUDIO_PROC_START,
      AUDIO_PROC_STOP, ioc_rdwr, ioc_none, ioc_enc, AUDIO_IOC_MAGIC,
      sizeof_audio_channel_info_data, AUDIO_CHANNEL_NAME_SIZE]

/-- The `int` result of the table copy when the table has fewer than
`2 ^ 31` bytes: the number of bytes left uncopied. -/
theorem table_copy_result (lw : LongWidth) (copy_left chans : Nat)
    (hN : sizeof_audio_channel_info_data * chans < 2 ^ 31) :
    to_int (raw_copy_to_user copy_left
        (to_unsigned lw.bits ((sizeof_audio_channel_info_data * chans : Nat) : Int)))
      = (min copy_left (sizeof_audio_channel_info_data * chans) : Nat) := by
  have hb : sizeof_audio_channel_info_data * chans < 2 ^ lw.bits := by
    cases lw
    · show _ < 2 ^ 32
      omega
    · show _ < 2 ^ 64
      omega
  rw [to_unsigned_nat, Nat.mod_eq_of_lt hb]
  unfold raw_copy_to_user
  have h := Nat.min_le_right copy_left (sizeof_audio_channel_info_data * chans)
  apply to_int_of_range <;> omega

theorem get_input_chan_info_fault (lw : LongWidth)
    (start_stop : audio_evl_dev → Bool → audio_evl_dev) (copy_left : Nat)
    (ctx : audio_dev_context) (m : Module) (tin : List audio_channel_info_data)
    (hctx : ctx.audio_input_info = some tin)
    (hN : sizeof_audio_channel_info_data * m.audio_input_channels < 2 ^ 31)
    (hf : 0 < min copy_left (sizeof_audio_channel_info_data * m.audio_input_channels)) :
    audio_driver_ioctl lw start_stop copy_left ctx m AUDIO_GET_INPUT_CHAN_INFO
      = { ret := (min copy_left
                    (sizeof_audio_channel_info_data * m.audio_input_channels) : Nat)
          delivered := none
          state := m } := by
  have e1 := get_input_ne AUDIO_PROC_START (Or.inl rfl)
  have e2 := get_input_ne AUDIO_PROC_STOP (Or.inr rfl)
  have hr := table_copy_result lw copy_left m.audio_input_channels hN
  have hb : sizeof_audio_channel_info_data * m.audio_input_channels < 2 ^ lw.bits := by
    cases lw
    · show _ < 2 ^ 32
      omega
    · show _ < 2 ^ 64
      omega
  have hz : raw_copy_to_user copy_left
      (to_unsigned lw.bits
        ((sizeof_audio_channel_info_data * m.audio_input_channels : Nat) : Int)) ≠ 0 := by
    rw [to_unsigned_nat, Nat.mod_eq_of_lt hb]
    unfold raw_copy_to_user
    omega
  simp only [audio_driver_ioctl, e1, e2, if_false, if_true, hctx]
  push_cast at hr hz ⊢
  rw [hr]
  simp only [if_false, hz, ite_self]

theorem get_output_chan_info_fault (lw : LongWidth)
    (start_stop : audio_evl_dev → Bool → audio_evl_dev) (copy_left : Nat)
    (ctx : audio_dev_context) (m : Module) (tout : List audio_channel_info_data)
    (hctx : ctx.audio_output_info = some tout)
    (hN : sizeof_audio_channel_info_data * m.audio_output_channels < 2 ^ 31)
    (hf : 0 < min copy_left (sizeof_audio_channel_info_data * m.audio_output_channels)) :
    audio_driver_ioctl lw start_stop copy_left ctx m AUDIO_GET_OUTPUT_CHAN_INFO
      = { ret := (min copy_left
                    (sizeof_audio_channel_info_data * m.audio_output_channels) : Nat)
          delivered := none
          state := m } := by
  have e1 := get_output_ne AUDIO_PROC_START (Or.inl rfl)
  have e2 := get_output_ne AUDIO_PROC_STOP (Or.inr (Or.inl rfl))
  have e3 := get_output_ne AUDIO_GET_INPUT_CHAN_INFO (Or.inr (Or.inr rfl))
  have hr := table_copy_result lw copy_left m.audio_output_channels hN
  have hb : sizeof_audio_channel_info_data * m.audio_output_channels < 2 ^ lw.bits := by
    cases lw
    · show _ < 2 ^ 32
      omega
    · show _ < 2 ^ 64
      omega
  have hz : raw_copy_to_user copy_left
      (to_unsigned lw.bits
        ((sizeof_audio_channel_info_data * m.audio_output_channels : Nat) : Int)) ≠ 0 := by
    rw [to_unsigned_nat, Nat.mod_eq_of_lt hb]
    unfold raw_copy_to_user
    omega
  simp only [audio_driver_ioctl, e1, e2, e3, if_false, if_true, hctx]
  push_cast at hr hz ⊢
  rw [hr]
  simp only [if_false, hz, ite_self]

/-- C9 (the code at the failing input): on a session of the default module
(8 channels per direction, tables of 352 bytes) a copy that leaves all 352
bytes uncopied makes `AUDIO_GET_INPUT_CHAN_INFO` and
`AUDIO_GET_OUTPUT_CHAN_INFO` return 352, and one that leaves 44 bytes
uncopied makes them return 44: the positive byte count, not a negative error
code. Nothing is delivered and the module state is unchanged. -/
theorem C9_copy_fault_returns_byte_count :
    audio_driver_ioctl LongWidth.lp64 start_stop_id 352 ctx_defaults module_defaults
        AUDIO_GET_INPUT_CHAN_INFO
      = { ret := 352, delivered := none, state := module_defaults }
    ∧ audio_driver_ioctl LongWidth.lp64 start_stop_id 352 ctx_defaults module_defaults
        AUDIO_GET_OUTPUT_CHAN_INFO
      = { ret := 352, delivered := none, state := module_defaults }
    ∧ audio_driver_ioctl LongWidth.ilp32 start_stop_id 44 ctx_defaults module_defaults
        AUDIO_GET_INPUT_CHAN_INFO
      = { ret := 44, delivered := none, state := module_defaults }
    ∧ audio_driver_ioctl LongWidth.ilp32 start_stop_id 44 ctx_defaults module_defaults
        AUDIO_GET_OUTPUT_CHAN_INFO
      = { ret := 44, delivered := none, state := module_defaults }
    ∧ (audio_driver_open open_ok module_defaults).private_data = some ctx_defaults := by
  refine ⟨?_, ?_, ?_, ?_, ?_⟩
  · exact get_input_chan_info_fault LongWidth.lp64 start_stop_id 352 ctx_defaults
      module_defaults _ rfl (by decide) (by decide)
  · exact get_output_chan_info_fault LongWidth.lp64 start_stop_id 352 ctx_defaults
      module_defaults _ rfl (by decide) (by decide)
  · exact get_input_chan_info_fault LongWidth.ilp32 start_stop_id 44 ctx_defaults
      module_defaults _ rfl (by decide) (by decide)
  · exact get_output_chan_info_fault LongWidth.ilp32 start_stop_id 44 ctx_defaults
      module_defaults _ rfl (by decide) (by decide)
  · simp [audio_driver_open, open_ok, ctx_defaults, module_defaults]

/-! ## Failure of `AUDIO_IRQ_WAIT` (C10) -/

/-- C10: `AUDIO_IRQ_WAIT` is atomic on failure. If the flag wait returns a
non-zero result, the call returns that result, writes no index to the caller
and leaves the whole module state (so `kernel_interrupts`,
`user_proc_completions` and `session_under_runs`) unchanged; if the wait
succeeds and the copy of the index fails, it returns `-EFAULT`, again with
nothing delivered and the state unchanged; and it returns 0 exactly when the
wait succeeded and the copy completed, in which case the index was delivered. -/
theorem C10_irq_wait_atomic_on_failure (lw : LongWidth) (env : OobEnv) (m : Module) :
    (env.wait_ret ≠ 0 →
        (audio_driver_oob_ioctl lw env m AUDIO_IRQ_WAIT).ret = env.wait_ret
        ∧ (audio_driver_oob_ioctl lw env m AUDIO_IRQ_WAIT).delivered = none
        ∧ (audio_driver_oob_ioctl lw env m AUDIO_IRQ_WAIT).state = m)
    ∧ (env.wait_ret = 0 → env.copy_left ≠ 0 →
        (audio_driver_oob_ioctl lw env m AUDIO_IRQ_WAIT).ret = -EFAULT
        ∧ (audio_driver_oob_ioctl lw env m AUDIO_IRQ_WAIT).delivered = none
        ∧ (audio_driver_oob_ioctl lw env m AUDIO_IRQ_WAIT).state = m)
    ∧ ((audio_driver_oob_ioctl lw env m AUDIO_IRQ_WAIT).ret = 0
        ↔ env.wait_ret = 0 ∧ env.copy_left = 0)
    ∧ ((audio_driver_oob_ioctl lw env m AUDIO_IRQ_WAIT).ret = 0 →
        (audio_driver_oob_ioctl lw env m AUDIO_IRQ_WAIT).delivered
          = some (if m.i2s_dev.buffer_idx ≠ 0 then 0 else 1)) := by
  have hiff : (audio_driver_oob_ioctl lw env m AUDIO_IRQ_WAIT).ret = 0
      ↔ env.wait_ret = 0 ∧ env.copy_left = 0 := by
    constructor
    · intro h
      by_cases hw : env.wait_ret = 0
      · by_cases hc : env.copy_left = 0
        · exact ⟨hw, hc⟩
        · rw [irq_wait_copy_failed lw env m hw hc] at h
          exact absurd h (by norm_num [EFAULT])
      · rw [irq_wait_wait_failed lw env m hw] at h
        exact absurd h hw
    · rintro ⟨hw, hc⟩
      rw [irq_wait_success lw env m hw hc]
  refine ⟨fun hw => ?_, fun hw hc => ?_, hiff, fun h => ?_⟩
  · rw [irq_wait_wait_failed lw env m hw]
    exact ⟨rfl, rfl, rfl⟩
  · rw [irq_wait_copy_failed lw env m hw hc]
    exact ⟨rfl, rfl, rfl⟩
  · rw [irq_wait_success lw env m (hiff.1 h).1 (hiff.1 h).2]

/-- C10 (witness): on the active session a wait that fails with -4 is
returned as -4, and a completed wait whose copy leaves 4 bytes uncopied gives
`-EFAULT`; both leave the state as it was. -/
theorem C10_irq_wait_atomic_on_failure_witness :
    ((-4 : Int) ≠ 0
      ∧ (audio_driver_oob_ioctl LongWidth.lp64 { wait_ret := -4, copy_left := 0 }
          state_active AUDIO_IRQ_WAIT).ret = -4
      ∧ (audio_driver_oob_ioctl LongWidth.lp64 { wait_ret := -4, copy_left := 0 }
          state_active AUDIO_IRQ_WAIT).state = state_active)
    ∧ ((4 : Nat) ≠ 0
      ∧ (audio_driver_oob_ioctl LongWidth.lp64 { wait_ret := 0, copy_left := 4 }
          state_active AUDIO_IRQ_WAIT).ret = -EFAULT
      ∧ (audio_driver_oob_ioctl LongWidth.lp64 { wait_ret := 0, copy_left := 4 }
          state_active AUDIO_IRQ_WAIT).state = state_active) :=
  have h1 : (-4 : Int) ≠ 0 := by decide
  have h2 : (4 : Nat) ≠ 0 := by decide
  have a := (C10_irq_wait_atomic_on_failure LongWidth.lp64 { wait_ret := -4, copy_left := 0 }
    state_active).1 h1
  have b := (C10_irq_wait_atomic_on_failure LongWidth.lp64 { wait_ret := 0, copy_left := 4 }
    state_active).2.1 rfl h2
  ⟨⟨h1, a.1, a.2.2⟩, ⟨h2, b.1, b.2.2⟩⟩

/-! ## Initialisation at open (C11) -/

theorem open_alloc_failed (env : OpenEnv) (m : Module)
    (h : env.ctx_alloc = false ∨ env.input_alloc = false ∨ env.output_alloc = false) :
    audio_driver_open env m = { ret := -ENOMEM, private_data := none, state := m } := by
  by_cases h1 : env.ctx_alloc = false
  · simp [audio_driver_open, h1]
  by_cases h2 : env.input_alloc = false
  · simp [audio_driver_open, h1, h2]
  by_cases h3 : env.output_alloc = false
  · simp [audio_driver_open, h1, h2, h3]
  · rcases h with h | h | h
    · exact absurd h h1
    · exact absurd h h2
    · exact absurd h h3

theorem open_evl_failed (env : OpenEnv) (m : Module)
    (h1 : env.ctx_alloc = true) (h2 : env.input_alloc = true) (h3 : env.output_alloc = true)
    (h4 : env.evl_open_file_ret ≠ 0) :
    audio_driver_open env m
      = { ret := env.evl_open_file_ret, private_data := none, state := m } := by
  simp [audio_driver_open, h1, h2, h3, h4]

/-- C11: open initialises the tracker to zero. For every prior state, when
`audio_driver_open` returns 0 (which it does exactly when the three
allocations and `evl_open_file` succeed) the completion counter
`dev->kinterrupts`, the mirror `kernel_interrupts`, the acknowledged counter
`user_proc_completions`, the under-run count `session_under_runs`, the buffer
index `dev->buffer_idx` and `dev->wait_flag` are all 0. When an allocation
fails it returns `-ENOMEM`, and when `evl_open_file` fails it returns that
error; in both cases no context is stored and the state is unchanged. -/
theorem C11_open_initialises_tracker (env : OpenEnv) (m : Module) :
    ((audio_driver_open env m).ret = 0 →
        (audio_driver_open env m).state.i2s_dev.kinterrupts = 0
        ∧ (audio_driver_open env m).state.kernel_interrupts = 0
        ∧ (audio_driver_open env m).state.user_proc_completions = 0
        ∧ (audio_driver_open env m).state.session_under_runs = 0
        ∧ (audio_driver_open env m).state.i2s_dev.buffer_idx = 0
        ∧ (audio_driver_open env m).state.i2s_dev.wait_flag = 0)
    ∧ ((audio_driver_open env m).ret = 0
        ↔ env.ctx_alloc = true ∧ env.input_alloc = true ∧ env.output_alloc = true
          ∧ env.evl_open_file_ret = 0)
    ∧ ((env.ctx_alloc = false ∨ env.input_alloc = false ∨ env.output_alloc = false) →
        (audio_driver_open env m).ret = -ENOMEM
        ∧ (audio_driver_open env m).private_data = none
        ∧ (audio_driver_open env m).state = m)
    ∧ (env.ctx_alloc = true → env.input_alloc = true → env.output_alloc = true →
        env.evl_open_file_ret ≠ 0 →
        (audio_driver_open env m).ret = env.evl_open_file_ret
        ∧ (audio_driver_open env m).private_data = none
        ∧ (audio_driver_open env m).state = m) := by
  have hok : env = open_ok
      ↔ env.ctx_alloc = true ∧ env.input_alloc = true ∧ env.output_alloc = true
        ∧ env.evl_open_file_ret = 0 := by
    cases env
    simp [open_ok]
  refine ⟨fun h => ?_, (open_ret_zero_iff env m).trans hok, fun h => ?_,
    fun h1 h2 h3 h4 => ?_⟩
  · have he := (open_ret_zero_iff env m).1 h
    subst he
    rw [open_ok_state]
    exact ⟨rfl, rfl, rfl, rfl, rfl, rfl⟩
  · rw [open_alloc_failed env m h]
    exact ⟨rfl, rfl, rfl⟩
  · rw [open_evl_failed env m h1 h2 h3 h4]
    exact ⟨rfl, rfl, rfl⟩

/-- C11 (witness): opening over the counters an earlier session left behind
returns 0 and zeroes them; with the input table allocation failing the call
returns `-ENOMEM`, and with `evl_open_file` returning -16 it returns -16, the
left-over state staying as it was. -/
theorem C11_open_initialises_tracker_witness :
    ((audio_driver_open open_ok state_left_over).ret = 0
      ∧ (audio_driver_open open_ok state_left_over).state.i2s_dev.kinterrupts = 0
      ∧ (audio_driver_open open_ok state_left_over).state.user_proc_completions = 0
      ∧ (audio_driver_open open_ok state_left_over).state.session_under_runs = 0)
    ∧ (({ open_ok with input_alloc := false } : OpenEnv).input_alloc = false
      ∧ (audio_driver_open { open_ok with input_alloc := false } state_left_over).ret
          = -ENOMEM
      ∧ (audio_driver_open { open_ok with input_alloc := false } state_left_over).state
          = state_left_over)
    ∧ (({ open_ok with evl_open_file_ret := -16 } : OpenEnv).evl_open_file_ret ≠ 0
      ∧ (audio_driver_open { open_ok with evl_open_file_ret := -16 } state_left_over).ret
          = -16
      ∧ (audio_driver_open { open_ok with evl_open_file_ret := -16 } state_left_over).state
          = state_left_over) :=
  have h0 : (audio_driver_open open_ok state_left_over).ret = 0 := by decide
  have a := (C11_open_initialises_tracker open_ok state_left_over).1 h0
  have h1 : ({ open_ok with input_alloc := false } : OpenEnv).input_alloc = false := rfl
  have b := (C11_open_initialises_tracker { open_ok with input_alloc := false }
    state_left_over).2.2.1 (Or.inr (Or.inl h1))
  have h2 : ({ open_ok with evl_open_file_ret := -16 } : OpenEnv).evl_open_file_ret ≠ 0 := by
    decide
  have c := (C11_open_initialises_tracker { open_ok with evl_open_file_ret := -16 }
    state_left_over).2.2.2 rfl rfl rfl h2
  ⟨⟨h0, a.1, a.2.2.1, a.2.2.2.1⟩, ⟨h1, b.1, b.2.2⟩, ⟨h2, c.1, c.2.2⟩⟩

end RpiAudioEvl
